import Mathlib

/-!
Shallow embedding of the warehouse task-allocation core
(`src/simulation/inventory.py`, `src/simulation/agv.py`,
`src/simulation/warehouse.py`, `src/agents/restock_agent.py`,
`src/agents/agv_planner.py`, `src/agents/coordinator.py`).

Python dictionaries are embedded as association lists (`List (String × α)`)
with dict semantics: lookup finds the first matching key, assignment replaces
the first matching entry in place or appends a fresh key at the end, `del`
removes the entry.  Python `int` becomes `Int`; Python `float` fields
(battery level, AGV capacity) become `ℚ`, which is exact for every float
operation the embedded code performs on them.  `datetime` bookkeeping
(`last_updated` fields) and persistence-to-file side effects carry no
behavioural content for the verified properties and are omitted, as is the
Python logger.  Result dictionaries are embedded as an `ActionResult`
structure carrying the fields the verified properties inspect.
-/

/-- Dict lookup: value of the first entry with the given key. -/
def alGet {α : Type} (l : List (String × α)) (k : String) : Option α :=
  (l.find? (fun e => e.1 = k)).map (fun e => e.2)

/-- Dict assignment: replace the first entry with the given key in place,
or append a fresh entry at the end (Python dict insertion order). -/
def alSet {α : Type} (l : List (String × α)) (k : String) (v : α) :
    List (String × α) :=
  match l with
  | [] => [(k, v)]
  | e :: rest => if e.1 = k then (k, v) :: rest else e :: alSet rest k v

/-- Dict deletion (`del d[k]`): drop the first entry with the given key. -/
def alErase {α : Type} (l : List (String × α)) (k : String) :
    List (String × α) :=
  l.eraseP (fun e => e.1 = k)

/-- `sum(d.values())` over an embedded dict with integer values. -/
def sumVals (l : List (String × Int)) : Int :=
  (l.map (fun e => e.2)).sum

/-- Python truthiness of an optional string
(`None` and the empty string are falsy). -/
def truthyStr (o : Option String) : Bool :=
  match o with
  | none => false
  | some s => !(s == "")

/-- `InventoryItem` (inventory.py:10-28).  `last_updated` omitted. -/
structure InventoryItem where
  product_id : String
  name : String
  quantity : Int
  location : String
  min_threshold : Int
  max_capacity : Int
  deriving Repr, DecidableEq

/-- `InventoryItem.needs_restock` (inventory.py:56-58). -/
def InventoryItem.needs_restock (it : InventoryItem) : Bool :=
  it.quantity ≤ it.min_threshold

/-- `InventoryItem.can_add` (inventory.py:60-62). -/
def InventoryItem.can_add (it : InventoryItem) (amount : Int) : Bool :=
  it.quantity + amount ≤ it.max_capacity

/-- `InventoryItem.add` (inventory.py:64-70): the mutation is embedded by
returning the updated item next to the success flag. -/
def InventoryItem.add (it : InventoryItem) (amount : Int) :
    Bool × InventoryItem :=
  if !(it.can_add amount) then (false, it)
  else (true, { it with quantity := it.quantity + amount })

/-- `InventoryItem.remove` (inventory.py:72-78). -/
def InventoryItem.remove (it : InventoryItem) (amount : Int) :
    Bool × InventoryItem :=
  if amount > it.quantity then (false, it)
  else (true, { it with quantity := it.quantity - amount })

/-- The `InventoryManager.items` dict (inventory.py:85), keyed by product id. -/
abbrev Items : Type := List (String × InventoryItem)

/-- `InventoryManager.get_item` (inventory.py:96-98). -/
def InventoryManager.get_item (items : Items) (product_id : String) :
    Option InventoryItem :=
  alGet items product_id

/-- `InventoryManager.add_quantity` (inventory.py:124-134): look the item up
and delegate to `InventoryItem.add`; a failed add mutates nothing. -/
def InventoryManager.add_quantity (items : Items) (product_id : String)
    (amount : Int) : Bool × Items :=
  match InventoryManager.get_item items product_id with
  | none => (false, items)
  | some it =>
    let r := it.add amount
    (r.1, if r.1 then alSet items product_id r.2 else items)

/-- `InventoryManager.remove_quantity` (inventory.py:136-146). -/
def InventoryManager.remove_quantity (items : Items) (product_id : String)
    (amount : Int) : Bool × Items :=
  match InventoryManager.get_item items product_id with
  | none => (false, items)
  | some it =>
    let r := it.remove amount
    (r.1, if r.1 then alSet items product_id r.2 else items)

/-- `AGVStatus` (agv.py:11-18). -/
inductive AGVStatus where
  | idle | moving | loading | unloading | charging | maintenance
  deriving Repr, DecidableEq

/-- `AGV` (agv.py:21-41).  `name` and `last_updated` carry no behaviour for
the verified properties; floats are embedded as `ℚ`. -/
structure AGV where
  agv_id : String
  name : String
  location : String
  status : AGVStatus
  battery_level : ℚ
  max_capacity : ℚ
  current_load : List (String × Int)
  deriving Repr, DecidableEq

/-- `AGV.is_available` (agv.py:71-77): idle, battery above 20, empty load. -/
def AGV.is_available (agv : AGV) : Bool :=
  agv.status = AGVStatus.idle && agv.battery_level > 20 &&
    agv.current_load.isEmpty

/-- `AGV.move_to` (agv.py:79-86): set the location, burn 5.0 battery clamped
at 0.  The transient `MOVING` status is reset to `IDLE` within the same call,
so the net status is `idle`. -/
def AGV.move_to (agv : AGV) (new_location : String) : AGV :=
  { agv with
    location := new_location
    battery_level := max 0 (agv.battery_level - 5)
    status := AGVStatus.idle }

/-- `AGV.load_item` (agv.py:88-108): refuse unless idle, refuse when the new
total weight exceeds `max_capacity` (int total compared against the float
capacity), otherwise add the quantity to the product's line and burn 2.0
battery.  The transient `LOADING` status nets to `idle`. -/
def AGV.load_item (agv : AGV) (product_id : String) (quantity : Int) :
    Bool × AGV :=
  if agv.status ≠ AGVStatus.idle then (false, agv)
  else
    let current_weight := sumVals agv.current_load
    if ((current_weight + quantity : Int) : ℚ) > agv.max_capacity then
      (false, agv)
    else
      let new_load :=
        match alGet agv.current_load product_id with
        | some v => alSet agv.current_load product_id (v + quantity)
        | none => agv.current_load ++ [(product_id, quantity)]
      (true,
        { agv with
          current_load := new_load
          battery_level := max 0 (agv.battery_level - 2)
          status := AGVStatus.idle })

/-- `AGV.unload_item` (agv.py:110-133): return `(product_id, 0)` unless idle
and holding the product; with no requested quantity, or a request at least
the held amount, drop the whole line and return the held amount; otherwise
subtract the request (deleting the line if it reaches zero).  Burns 2.0
battery on the unloading path; transient `UNLOADING` nets to `idle`. -/
def AGV.unload_item (agv : AGV) (product_id : String)
    (quantity : Option Int) : (String × Int) × AGV :=
  if agv.status ≠ AGVStatus.idle then ((product_id, 0), agv)
  else
    match alGet agv.current_load product_id with
    | none => ((product_id, 0), agv)
    | some held =>
      let step : Int × List (String × Int) :=
        match quantity with
        | none => (held, alErase agv.current_load product_id)
        | some q =>
          if q ≥ held then (held, alErase agv.current_load product_id)
          else
            let remaining := held - q
            (q,
              if remaining = 0 then alErase agv.current_load product_id
              else alSet agv.current_load product_id remaining)
      ((product_id, step.1),
        { agv with
          current_load := step.2
          battery_level := max 0 (agv.battery_level - 2)
          status := AGVStatus.idle })

/-- The `AGVManager.agvs` dict (agv.py:147), keyed by AGV id. -/
abbrev Agvs : Type := List (String × AGV)

/-- `AGVManager.get_agv` (agv.py:158-160). -/
def AGVManager.get_agv (agvs : Agvs) (agv_id : String) : Option AGV :=
  alGet agvs agv_id

/-- `AGVManager.get_available_agvs` (agv.py:166-168): registry iteration
order, filtered by availability. -/
def AGVManager.get_available_agvs (agvs : Agvs) : List AGV :=
  (agvs.map (fun e => e.2)).filter (fun a => a.is_available)

/-- `AGVManager.move_agv` (agv.py:184-195): fails only when the AGV is
missing; the in-place mutation of the AGV object is embedded by writing the
moved AGV back under its key. -/
def AGVManager.move_agv (agvs : Agvs) (agv_id : String) (location : String) :
    Bool × Agvs :=
  match AGVManager.get_agv agvs agv_id with
  | none => (false, agvs)
  | some agv => (true, alSet agvs agv_id (agv.move_to location))

/-- `AGVManager.load_agv` (agv.py:197-208). -/
def AGVManager.load_agv (agvs : Agvs) (agv_id : String) (product_id : String)
    (quantity : Int) : Bool × Agvs :=
  match AGVManager.get_agv agvs agv_id with
  | none => (false, agvs)
  | some agv =>
    let r := agv.load_item product_id quantity
    (r.1, alSet agvs agv_id r.2)

/-- `AGVManager.unload_agv` (agv.py:210-221). -/
def AGVManager.unload_agv (agvs : Agvs) (agv_id : String)
    (product_id : String) (quantity : Option Int) : (String × Int) × Agvs :=
  match AGVManager.get_agv agvs agv_id with
  | none => ((product_id, 0), agvs)
  | some agv =>
    let r := agv.unload_item product_id quantity
    (r.1, alSet agvs agv_id r.2)

/-- The mutable world both agents act on: the Inventory Ledger and the Fleet
Registry owned by `Warehouse` (warehouse.py:33-41). -/
structure WState where
  items : Items
  agvs : Agvs
  deriving Repr, DecidableEq

/-- Result dictionary of an agent action, with the fields the verified
properties inspect (`success`, `message`, and the operation-specific payload
fields); descriptive-only payload such as the step list of a restock plan is
not modelled. -/
structure ActionResult where
  success : Bool
  message : String := ""
  restock_needed : Option Bool := none
  product_id : Option String := none
  restock_amount : Option Int := none
  agv_id : Option String := none
  restocked_quantity : Option Int := none
  new_quantity : Option Int := none
  quantity : Option Int := none
  new_inventory_item : Option Bool := none
  deriving Repr, DecidableEq

/-- Python `int()` applied to a rational: truncation toward zero. -/
def pyInt (q : ℚ) : Int :=
  if q < 0 then ⌈q⌉ else ⌊q⌋

/-- `RestockAgent._calculate_restock_priority` (restock_agent.py:47-63):
10 when out of stock, otherwise `min(9, max(1, int(percentage * 10)))` where
`percentage = (min_threshold - quantity) / min_threshold`.  The Python float
division is embedded as exact rational division; `int()` truncates toward
zero. -/
def RestockAgent.calculate_restock_priority (it : InventoryItem) : Int :=
  if it.quantity = 0 then 10
  else
    let threshold_percentage : ℚ :=
      ((it.min_threshold : ℚ) - (it.quantity : ℚ)) / (it.min_threshold : ℚ)
    min 9 (max 1 (pyInt (threshold_percentage * 10)))

/-- `RestockAgent.plan_restock_operation` (restock_agent.py:65-139).  The
body only reads the ledgers, so the world is returned unchanged; the
descriptive `steps` list of the returned plan is not modelled. -/
def RestockAgent.plan_restock_operation (s : WState) (product_id : String) :
    ActionResult × WState :=
  match InventoryManager.get_item s.items product_id with
  | none =>
    ({ success := false, message := "Product " ++ product_id ++ " not found" }, s)
  | some it =>
    if !it.needs_restock then
      ({ success := true
         message := "Product " ++ product_id ++ " does not need restocking"
         restock_needed := some false }, s)
    else
      match AGVManager.get_available_agvs s.agvs with
      | [] =>
        ({ success := false, message := "No available AGVs for restocking" }, s)
      | selected_agv :: _ =>
        let restock_amount := it.max_capacity - it.quantity
        ({ success := true
           restock_needed := some true
           product_id := some product_id
           restock_amount := some restock_amount
           agv_id := some selected_agv.agv_id }, s)

/-- The `execute_restock` branch of `RestockAgent.execute_action`
(restock_agent.py:167-270).  Parameters are taken as given values; the
leading `if not product_id or not agv_id or not restock_amount` check is the
Python truthiness test (empty string and 0 are falsy).  Steps: move the AGV
to receiving, load `restock_amount`, move to the item's storage location,
unload, and commit the unloaded quantity to the ledger via `add_quantity`;
each failing step reports failure. -/
def RestockAgent.execute_restock (s : WState) (product_id : String)
    (agv_id : String) (restock_amount : Int) : ActionResult × WState :=
  if product_id = "" ∨ agv_id = "" ∨ restock_amount = 0 then
    ({ success := false
       message := "Missing parameters (product_id, agv_id, or restock_amount)" }, s)
  else
    match InventoryManager.get_item s.items product_id with
    | none =>
      ({ success := false, message := "Product " ++ product_id ++ " not found" }, s)
    | some it =>
      match AGVManager.get_agv s.agvs agv_id with
      | none =>
        ({ success := false, message := "AGV " ++ agv_id ++ " not found" }, s)
      | some agv =>
        if agv.status ≠ AGVStatus.idle then
          ({ success := false, message := "AGV " ++ agv_id ++ " is not idle" }, s)
        else
          let m1 := AGVManager.move_agv s.agvs agv_id "receiving"
          if !m1.1 then
            ({ success := false
               message := "Failed to move AGV " ++ agv_id ++ " to receiving" }, s)
          else
            let s1 : WState := { s with agvs := m1.2 }
            let l2 := AGVManager.load_agv s1.agvs agv_id product_id restock_amount
            let s2 : WState := { s1 with agvs := l2.2 }
            if !l2.1 then
              ({ success := false
                 message := "Failed to load onto AGV " ++ agv_id }, s2)
            else
              let m3 := AGVManager.move_agv s2.agvs agv_id it.location
              if !m3.1 then
                ({ success := false
                   message := "Failed to move AGV " ++ agv_id }, s2)
              else
                let s3 : WState := { s2 with agvs := m3.2 }
                let u4 := AGVManager.unload_agv s3.agvs agv_id product_id
                  (some restock_amount)
                let unloaded_quantity := u4.1.2
                let s4 : WState := { s3 with agvs := u4.2 }
                if unloaded_quantity > 0 then
                  let a5 := InventoryManager.add_quantity s4.items product_id
                    unloaded_quantity
                  let s5 : WState := { s4 with items := a5.2 }
                  if a5.1 then
                    ({ success := true
                       product_id := some product_id
                       restocked_quantity := some unloaded_quantity
                       new_quantity :=
                         (InventoryManager.get_item s5.items product_id).map
                           (fun j => j.quantity)
                       agv_id := some agv_id }, s5)
                  else
                    ({ success := false
                       message := "Failed to add to inventory" }, s5)
                else
                  ({ success := false
                     message := "Failed to unload " ++ product_id ++
                       " from AGV " ++ agv_id }, s4)

/-- The `load_agv` branch of `AGVPlannerAgent.execute_action`
(agv_planner.py:174-254): relocate the AGV to the item if needed, check
sufficient inventory, debit the ledger first, then load the AGV, and re-add
the debited quantity to the ledger when the AGV load fails. -/
def AGVPlannerAgent.load_agv_action (s : WState) (agv_id : String)
    (product_id : String) (quantity : Int) : ActionResult × WState :=
  if agv_id = "" ∨ product_id = "" ∨ ¬(quantity > 0) then
    ({ success := false, message := "Invalid parameters for load_agv action" }, s)
  else
    match AGVManager.get_agv s.agvs agv_id with
    | none =>
      ({ success := false, message := "AGV " ++ agv_id ++ " not found" }, s)
    | some agv =>
      match InventoryManager.get_item s.items product_id with
      | none =>
        ({ success := false, message := "Product " ++ product_id ++ " not found" }, s)
      | some it =>
        let moved : Bool × WState :=
          if agv.location ≠ it.location then
            let m := AGVManager.move_agv s.agvs agv_id it.location
            (m.1, { s with agvs := m.2 })
          else (true, s)
        if !moved.1 then
          ({ success := false
             message := "Failed to move AGV " ++ agv_id ++ " to " ++ it.location },
            moved.2)
        else
          let s1 := moved.2
          if it.quantity < quantity then
            ({ success := false
               message := "Not enough inventory of " ++ product_id }, s1)
          else
            let rm := InventoryManager.remove_quantity s1.items product_id quantity
            let s2 : WState := { s1 with items := rm.2 }
            if !rm.1 then
              ({ success := false
                 message := "Failed to remove from inventory" }, s2)
            else
              let ld := AGVManager.load_agv s2.agvs agv_id product_id quantity
              let s3 : WState := { s2 with agvs := ld.2 }
              if ld.1 then
                ({ success := true
                   agv_id := some agv_id
                   product_id := some product_id
                   quantity := some quantity }, s3)
              else
                let back := InventoryManager.add_quantity s3.items product_id quantity
                let s4 : WState := { s3 with items := back.2 }
                ({ success := false
                   message := "Failed to load onto AGV " ++ agv_id }, s4)

/-- A Python-level exception raised by the embedded code. -/
inductive PyErr where
  | attributeError
  deriving Repr, DecidableEq

/-- The argument actually passed to `InventoryManager.add_item`: either a
real `InventoryItem` object, or a plain Python `dict` holding the same
fields (as built literally at agv_planner.py:310-317). -/
inductive PyObj where
  | item (it : InventoryItem)
  | dict (d : InventoryItem)
  deriving Repr, DecidableEq

/-- `InventoryManager.add_item` (inventory.py:90-94) stores its argument
under `item.product_id`.  Attribute access `item.product_id` succeeds only
on an `InventoryItem` object; on a plain `dict` it raises `AttributeError`,
so the dict case is the raised exception. -/
def InventoryManager.add_item (items : Items) (obj : PyObj) :
    Except PyErr Items :=
  match obj with
  | PyObj.item it => Except.ok (alSet items it.product_id it)
  | PyObj.dict _ => Except.error PyErr.attributeError

/-- The `unload_agv` branch of `AGVPlannerAgent.execute_action`
(agv_planner.py:256-339): unload from the AGV first, then commit to the
ledger; on commit failure re-load the unloaded quantity back onto the AGV
(the compensation at agv_planner.py:302); when the product has no ledger
entry, the code passes a `dict` literal to `InventoryManager.add_item`,
which raises `AttributeError` (embedded as `Except.error`). -/
def AGVPlannerAgent.unload_agv_action (s : WState) (agv_id : String)
    (product_id : String) (quantity : Option Int) :
    Except PyErr (ActionResult × WState) :=
  if agv_id = "" ∨ product_id = "" then
    Except.ok
      ({ success := false, message := "Missing agv_id or product_id" }, s)
  else
    match AGVManager.get_agv s.agvs agv_id with
    | none =>
      Except.ok
        ({ success := false, message := "AGV " ++ agv_id ++ " not found" }, s)
    | some agv =>
      if (alGet agv.current_load product_id).isNone then
        Except.ok
          ({ success := false
             message := "AGV " ++ agv_id ++ " does not have product " ++ product_id },
            s)
      else
        let u := AGVManager.unload_agv s.agvs agv_id product_id quantity
        let unloaded_quantity := u.1.2
        let s1 : WState := { s with agvs := u.2 }
        if unloaded_quantity > 0 then
          match InventoryManager.get_item s1.items product_id with
          | some _ =>
            let ad := InventoryManager.add_quantity s1.items product_id
              unloaded_quantity
            let s2 : WState := { s1 with items := ad.2 }
            if ad.1 then
              Except.ok
                ({ success := true
                   agv_id := some agv_id
                   product_id := some product_id
                   quantity := some unloaded_quantity }, s2)
            else
              let back := AGVManager.load_agv s2.agvs agv_id product_id
                unloaded_quantity
              let s3 : WState := { s2 with agvs := back.2 }
              Except.ok
                ({ success := false
                   message := "Failed to add to inventory" }, s3)
          | none =>
            match InventoryManager.add_item s1.items
              (PyObj.dict
                { product_id := product_id
                  name := "Product " ++ product_id
                  quantity := unloaded_quantity
                  location := agv.location
                  min_threshold := 5
                  max_capacity := 100 }) with
            | Except.error e => Except.error e
            | Except.ok items2 =>
              Except.ok
                ({ success := true
                   agv_id := some agv_id
                   product_id := some product_id
                   quantity := some unloaded_quantity
                   new_inventory_item := some true },
                  { s1 with items := items2 })
        else
          Except.ok
            ({ success := false
               message := "Failed to unload " ++ product_id ++ " from AGV " ++
                 agv_id }, s1)

/-- An action request as the coordinator sees it (coordinator.py:54-57):
only the `type` and `agent` keys are read at this level; the remaining
payload is consumed by the dispatched agent and is identified here by an
opaque payload tag used by the dispatch function. -/
structure CoordAction where
  type : Option String
  agent : Option String
  payload : String := ""
  deriving Repr, DecidableEq

/-- One entry of the coordinator's action journal
(`action_history`, coordinator.py:114-151): an `action` entry or a `result`
entry (each also records the action); the wall-clock timestamp is omitted. -/
inductive JournalEntry where
  | action (a : CoordAction)
  | result (a : CoordAction) (r : ActionResult)
  deriving Repr, DecidableEq

/-- The coordinator's state over a world of type `σ`:
the delegated world plus the append-only action journal. -/
structure CoordState (σ : Type) where
  world : σ
  journal : List JournalEntry
  deriving Repr, DecidableEq

/-- `CoordinatorAgent.execute_action` (coordinator.py:54-89).  The routing
block (lines 69-84: dispatch on the `agent` key to the inventory / AGV /
restock agents or the warehouse, with the unknown-agent failure fallback) is
abstracted as the `dispatch` parameter, exactly as the Python code reaches
it through dynamically bound agent objects.  An action whose `type` key is
falsy returns a failure before anything is journaled; otherwise the action
entry is appended before dispatch and the result entry after it, before
returning. -/
def CoordinatorAgent.execute_action {σ : Type}
    (dispatch : CoordAction → σ → ActionResult × σ) (cs : CoordState σ)
    (a : CoordAction) : ActionResult × CoordState σ :=
  if !truthyStr a.type then
    ({ success := false, message := "No action type specified" }, cs)
  else
    let cs1 : CoordState σ :=
      { cs with journal := cs.journal ++ [JournalEntry.action a] }
    let dr := dispatch a cs1.world
    let cs2 : CoordState σ :=
      { world := dr.2
        journal := cs1.journal ++ [JournalEntry.result a dr.1] }
    (dr.1, cs2)

/-- `CoordinatorAgent.execute_plan` (coordinator.py:91-104): execute the
actions in order through `execute_action`, collect each result, and stop
after the first result that does not report success. -/
def CoordinatorAgent.execute_plan {σ : Type}
    (dispatch : CoordAction → σ → ActionResult × σ) (cs : CoordState σ) :
    List CoordAction → List ActionResult × CoordState σ
  | [] => ([], cs)
  | a :: rest =>
    let r := CoordinatorAgent.execute_action dispatch cs a
    if r.1.success then
      let rs := CoordinatorAgent.execute_plan dispatch r.2 rest
      (r.1 :: rs.1, rs.2)
    else ([r.1], r.2)

/-- Clamp as the specification writes it: `clamp(x, lo, hi)`. -/
def clamp (x lo hi : Int) : Int :=
  max lo (min hi x)

/-- Modelled from the spec (priority scoring, §4.4): the reference
definition `quantity==0 → 10`; else
`clamp(round(((min_threshold − quantity)/min_threshold) × 10), 1, 9)`,
with `round` the usual rounding to the nearest integer.  Written to compare
against `RestockAgent.calculate_restock_priority`, the definition from the
source. -/
def restockPrioritySpec (it : InventoryItem) : Int :=
  if it.quantity = 0 then 10
  else
    clamp
      (round
        (((it.min_threshold : ℚ) - (it.quantity : ℚ)) / (it.min_threshold : ℚ) * 10))
      1 9

/-- The truncating variant of the reference definition: identical to
`restockPrioritySpec` except that the scaled percentage is truncated toward
zero (Python `int()`) instead of rounded. -/
def restockPrioritySpecTrunc (it : InventoryItem) : Int :=
  if it.quantity = 0 then 10
  else
    clamp
      (pyInt
        (((it.min_threshold : ℚ) - (it.quantity : ℚ)) / (it.min_threshold : ℚ) * 10))
      1 9

theorem alGet_nil {α : Type} (k : String) :
    alGet ([] : List (String × α)) k = none := rfl

theorem alGet_cons {α : Type} (e : String × α) (l : List (String × α))
    (k : String) :
    alGet (e :: l) k = if e.1 = k then some e.2 else alGet l k := by
  by_cases h : e.1 = k <;> simp [alGet, List.find?_cons, h]

theorem alGet_alSet_self {α : Type} (l : List (String × α)) (k : String)
    (v : α) : alGet (alSet l k v) k = some v := by
  induction l with
  | nil => simp [alSet, alGet_cons]
  | cons e rest ih =>
    by_cases h : e.1 = k
    · simp [alSet, h, alGet_cons]
    · simp [alSet, h, alGet_cons, ih]

theorem alGet_alSet_ne {α : Type} (l : List (String × α)) (k k' : String)
    (v : α) (h : k' ≠ k) : alGet (alSet l k v) k' = alGet l k' := by
  induction l with
  | nil =>
    rw [show alSet ([] : List (String × α)) k v = [(k, v)] from rfl,
      alGet_cons, alGet_nil]
    simp [Ne.symm h]
  | cons e rest ih =>
    by_cases he : e.1 = k
    · subst he
      simp [alSet, alGet_cons, Ne.symm h]
    · simp [alSet, he, alGet_cons, ih]

theorem alSet_of_alGet_eq {α : Type} (l : List (String × α)) (k : String)
    (v : α) (h : alGet l k = some v) : alSet l k v = l := by
  induction l with
  | nil => simp [alGet_nil] at h
  | cons e rest ih =>
    rw [alGet_cons] at h
    by_cases he : e.1 = k
    · rw [if_pos he] at h
      injection h with hv
      have hkv : (k, v) = e := by
        rcases e with ⟨ek, ev⟩
        have h1 : ek = k := by simpa using he
        have h2 : ev = v := by simpa using hv
        simp only [Prod.mk.injEq]
        exact ⟨h1.symm, h2.symm⟩
      simp [alSet, he, hkv]
    · rw [if_neg he] at h
      simp [alSet, he, ih h]

theorem sumVals_nil : sumVals [] = 0 := rfl

theorem sumVals_cons (e : String × Int) (l : List (String × Int)) :
    sumVals (e :: l) = e.2 + sumVals l := by
  simp [sumVals]

theorem sumVals_append (l₁ l₂ : List (String × Int)) :
    sumVals (l₁ ++ l₂) = sumVals l₁ + sumVals l₂ := by
  simp [sumVals]

theorem sumVals_alSet_add (l : List (String × Int)) (k : String) (v q : Int)
    (h : alGet l k = some v) :
    sumVals (alSet l k (v + q)) = sumVals l + q := by
  induction l with
  | nil => simp [alGet_nil] at h
  | cons e rest ih =>
    rw [alGet_cons] at h
    by_cases he : e.1 = k
    · rw [if_pos he] at h
      injection h with hv
      subst hv
      simp [alSet, he, sumVals_cons]
      ring
    · rw [if_neg he] at h
      simp [alSet, he, sumVals_cons, ih h]
      ring

theorem mem_alSet {α : Type} {e : String × α} {l : List (String × α)}
    {k : String} {v : α} (h : e ∈ alSet l k v) : e ∈ l ∨ e = (k, v) := by
  induction l with
  | nil => simp [alSet] at h; simp [h]
  | cons f rest ih =>
    by_cases hf : f.1 = k
    · simp [alSet, hf] at h
      rcases h with h | h
      · right; simp [h]
      · left; simp [h]
    · simp [alSet, hf] at h
      rcases h with h | h
      · left; simp [h]
      · rcases ih h with h' | h'
        · left; simp [h']
        · right; exact h'

theorem mem_of_alGet {α : Type} {l : List (String × α)} {k : String} {v : α}
    (h : alGet l k = some v) : (k, v) ∈ l := by
  induction l with
  | nil => simp [alGet_nil] at h
  | cons e rest ih =>
    rw [alGet_cons] at h
    by_cases he : e.1 = k
    · rw [if_pos he] at h
      injection h with hv
      have hkv : (k, v) = e := by
        rcases e with ⟨ek, ev⟩
        have h1 : ek = k := by simpa using he
        have h2 : ev = v := by simpa using hv
        simp only [Prod.mk.injEq]
        exact ⟨h1.symm, h2.symm⟩
      rw [← hkv]
      exact List.mem_cons_self _ _
    · rw [if_neg he] at h
      exact List.mem_cons_of_mem _ (ih h)

/-- One Inventory Ledger mutation of the kind the spec's ledger invariant
quantifies over: an `add_quantity` or a `remove_quantity` call. -/
inductive LedgerOp where
  | add (product_id : String) (amount : Int)
  | remove (product_id : String) (amount : Int)
  deriving Repr, DecidableEq

/-- The amount carried by a ledger call. -/
def LedgerOp.amount : LedgerOp → Int
  | .add _ n => n
  | .remove _ n => n

/-- Apply one ledger call through the `InventoryManager` operations. -/
def applyLedgerOp (items : Items) : LedgerOp → Bool × Items
  | .add pid n => InventoryManager.add_quantity items pid n
  | .remove pid n => InventoryManager.remove_quantity items pid n

/-- Run a sequence of ledger calls, keeping the resulting ledger. -/
def runLedgerOps (items : Items) : List LedgerOp → Items
  | [] => items
  | op :: rest => runLedgerOps (applyLedgerOp items op).2 rest

/-- The ledger invariant: every stored item satisfies
`0 ≤ quantity ≤ max_capacity`. -/
def ledgerInv (items : Items) : Prop :=
  ∀ e ∈ items, 0 ≤ e.2.quantity ∧ e.2.quantity ≤ e.2.max_capacity

instance (items : Items) : Decidable (ledgerInv items) := by
  unfold ledgerInv
  infer_instance

theorem ledgerInv_applyLedgerOp (items : Items) (op : LedgerOp)
    (hinv : ledgerInv items) (hpos : 0 < op.amount) :
    ledgerInv (applyLedgerOp items op).2 := by
  rcases op with ⟨pid, n⟩ | ⟨pid, n⟩ <;>
    simp only [LedgerOp.amount] at hpos
  · simp only [applyLedgerOp, InventoryManager.add_quantity,
      InventoryManager.get_item]
    cases hget : alGet items pid with
    | none => simpa using hinv
    | some it =>
      have hbounds : 0 ≤ it.quantity ∧ it.quantity ≤ it.max_capacity :=
        hinv _ (mem_of_alGet hget)
      by_cases hcan : it.quantity + n ≤ it.max_capacity
      · simp [InventoryItem.add, InventoryItem.can_add, hcan]
        intro e he
        rcases mem_alSet he with h | h
        · exact hinv _ h
        · subst h
          refine ⟨?_, ?_⟩ <;> simp <;> omega
      · simp [InventoryItem.add, InventoryItem.can_add, hcan]
        simpa using hinv
  · simp only [applyLedgerOp, InventoryManager.remove_quantity,
      InventoryManager.get_item]
    cases hget : alGet items pid with
    | none => simpa using hinv
    | some it =>
      have hbounds : 0 ≤ it.quantity ∧ it.quantity ≤ it.max_capacity :=
        hinv _ (mem_of_alGet hget)
      by_cases hgt : n > it.quantity
      · simp only [InventoryItem.remove, hgt, if_true]
        simpa using hinv
      · simp only [InventoryItem.remove, hgt, if_false]
        intro e he
        rcases mem_alSet he with h | h
        · exact hinv _ h
        · subst h
          refine ⟨?_, ?_⟩ <;> simp <;> omega

theorem applyLedgerOp_failure_frame (items : Items) (op : LedgerOp)
    (hfail : (applyLedgerOp items op).1 = false) :
    (applyLedgerOp items op).2 = items := by
  rcases op with ⟨pid, n⟩ | ⟨pid, n⟩
  · simp only [applyLedgerOp, InventoryManager.add_quantity,
      InventoryManager.get_item] at hfail ⊢
    cases hget : alGet items pid with
    | none => simp [hget]
    | some it =>
      simp only [hget] at hfail ⊢
      simp [hfail]
  · simp only [applyLedgerOp, InventoryManager.remove_quantity,
      InventoryManager.get_item] at hfail ⊢
    cases hget : alGet items pid with
    | none => simp [hget]
    | some it =>
      simp only [hget] at hfail ⊢
      simp [hfail]

theorem ledgerInv_runLedgerOps (items : Items) (ops : List LedgerOp)
    (hinv : ledgerInv items) (hpos : ∀ op ∈ ops, 0 < op.amount) :
    ledgerInv (runLedgerOps items ops) := by
  induction ops generalizing items with
  | nil => simpa [runLedgerOps] using hinv
  | cons op rest ih =>
    simp only [runLedgerOps]
    exact ih _
      (ledgerInv_applyLedgerOp items op hinv (hpos op (List.mem_cons_self _ _)))
      (fun o ho => hpos o (List.mem_cons_of_mem _ ho))

/-- C3: starting from a ledger satisfying `0 ≤ quantity ≤ max_capacity` for
every item, any sequence of `add_quantity`/`remove_quantity` calls with
positive amounts keeps the invariant after every call (every prefix of the
sequence), and any call that returns failure leaves the ledger unchanged
(no partial application). -/
theorem ledger_invariant_all_sequences (items : Items) (ops : List LedgerOp)
    (hinv : ledgerInv items) (hpos : ∀ op ∈ ops, 0 < op.amount) :
    (∀ pre suf, ops = pre ++ suf → ledgerInv (runLedgerOps items pre)) ∧
    (∀ (cur : Items) (op : LedgerOp), (applyLedgerOp cur op).1 = false →
      (applyLedgerOp cur op).2 = cur) := by
  constructor
  · intro pre suf hsplit
    refine ledgerInv_runLedgerOps items pre hinv (fun op hop => hpos op ?_)
    rw [hsplit]
    exact List.mem_append_left _ hop
  · exact applyLedgerOp_failure_frame

/-- Fixture item for concrete witnesses: a well-stocked widget. -/
def itemW : InventoryItem :=
  { product_id := "P1", name := "Widget", quantity := 80,
    location := "storage_a", min_threshold := 5, max_capacity := 100 }

/-- Witness for C3 at a concrete ledger and call sequence. -/
theorem ledger_invariant_all_sequences_witness :
    ledgerInv (runLedgerOps [("P1", itemW)]
      [LedgerOp.add "P1" 15, LedgerOp.remove "P1" 90]) :=
  (ledger_invariant_all_sequences [("P1", itemW)]
    [LedgerOp.add "P1" 15, LedgerOp.remove "P1" 90]
    (by decide) (by decide)).1
    [LedgerOp.add "P1" 15, LedgerOp.remove "P1" 90] [] rfl

/-- C4: for every `load_item` call, a successful call leaves the total
current load within `max_capacity`, and a call made while the agent is not
`Idle`, or whose added quantity would push the total past `max_capacity`,
returns `false` and leaves the AGV (in particular `current_load`)
unchanged. -/
theorem agv_capacity_invariant (agv : AGV) (product_id : String)
    (quantity : Int) :
    ((agv.load_item product_id quantity).1 = true →
      ((sumVals (agv.load_item product_id quantity).2.current_load : Int) : ℚ) ≤
        (agv.load_item product_id quantity).2.max_capacity) ∧
    ((agv.status ≠ AGVStatus.idle ∨
        ((sumVals agv.current_load + quantity : Int) : ℚ) > agv.max_capacity) →
      (agv.load_item product_id quantity).1 = false ∧
      (agv.load_item product_id quantity).2 = agv) := by
  have hcast : (((sumVals agv.current_load + quantity : Int) : ℚ)) =
      ((sumVals agv.current_load : Int) : ℚ) + ((quantity : Int) : ℚ) := by
    push_cast
    ring
  constructor
  · intro hok
    by_cases hidle : agv.status = AGVStatus.idle
    · by_cases hover : agv.max_capacity <
          ((sumVals agv.current_load : Int) : ℚ) + ((quantity : Int) : ℚ)
      · exfalso
        simp [AGV.load_item, hidle, hover] at hok
      · have hsum :
            sumVals (agv.load_item product_id quantity).2.current_load =
              sumVals agv.current_load + quantity := by
          cases hget : alGet agv.current_load product_id with
          | none =>
            simp [AGV.load_item, hidle, hover, hget, sumVals_append,
              sumVals_cons, sumVals_nil]
          | some v =>
            simp [AGV.load_item, hidle, hover, hget,
              sumVals_alSet_add agv.current_load product_id v quantity hget]
        have hcap : (agv.load_item product_id quantity).2.max_capacity =
            agv.max_capacity := by
          simp [AGV.load_item, hidle, hover]
        rw [hsum, hcap, hcast]
        exact le_of_not_lt hover
    · exfalso
      simp [AGV.load_item, hidle] at hok
  · intro hfail
    rcases hfail with hbusy | hover
    · simp [AGV.load_item, hbusy]
    · rw [gt_iff_lt, hcast] at hover
      by_cases hidle : agv.status = AGVStatus.idle
      · simp [AGV.load_item, hidle, hover]
      · simp [AGV.load_item, hidle]

/-- Fixture AGV for concrete witnesses: an idle, empty, fully-charged AGV. -/
def agvW : AGV :=
  { agv_id := "A1", name := "Bot", location := "charging_station",
    status := AGVStatus.idle, battery_level := 100, max_capacity := 50,
    current_load := [] }

/-- Witness for C4: a successful in-capacity load and a refused call on a
busy AGV, both at concrete inputs. -/
theorem agv_capacity_invariant_witness :
    (((sumVals (agvW.load_item "P1" 30).2.current_load : Int) : ℚ) ≤
      (agvW.load_item "P1" 30).2.max_capacity) ∧
    (({ agvW with status := AGVStatus.charging }.load_item "P1" 30).1 = false ∧
      ({ agvW with status := AGVStatus.charging }.load_item "P1" 30).2 =
        { agvW with status := AGVStatus.charging }) :=
  ⟨(agv_capacity_invariant agvW "P1" 30).1 (by norm_num [AGV.load_item, agvW,
      sumVals]),
    (agv_capacity_invariant { agvW with status := AGVStatus.charging } "P1"
      30).2 (Or.inl (by decide))⟩

/-- C10: an idle AGV holding `held > 0` units of a product, asked to unload
that product with no requested quantity or with a request of at least the
held amount, returns `(product_id, held)` (a positive amount, neither a
failure nor 0) and deletes the product's whole line from `current_load`. -/
theorem agv_unload_caps_at_held (agv : AGV) (product_id : String)
    (held : Int) (oq : Option Int)
    (hidle : agv.status = AGVStatus.idle)
    (hheld : alGet agv.current_load product_id = some held)
    (hpos : 0 < held)
    (hq : oq = none ∨ ∃ q, oq = some q ∧ held ≤ q) :
    (agv.unload_item product_id oq).1 = (product_id, held) ∧
    0 < (agv.unload_item product_id oq).1.2 ∧
    (agv.unload_item product_id oq).2.current_load =
      alErase agv.current_load product_id := by
  rcases hq with rfl | ⟨q, rfl, hle⟩
  · refine ⟨?_, ?_, ?_⟩ <;> simp [AGV.unload_item, hidle, hheld, hpos]
  · refine ⟨?_, ?_, ?_⟩ <;>
      simp [AGV.unload_item, hidle, hheld, hpos, ge_iff_le, hle]

/-- Witness for C10 at a concrete AGV: holding 7 units, asked for 99. -/
theorem agv_unload_caps_at_held_witness :
    (({ agvW with current_load := [("P1", 7)] }.unload_item "P1"
        (some 99)).1 = ("P1", 7)) ∧
    0 < ({ agvW with current_load := [("P1", 7)] }.unload_item "P1"
        (some 99)).1.2 ∧
    (({ agvW with current_load := [("P1", 7)] }.unload_item "P1"
        (some 99)).2.current_load =
      alErase [("P1", 7)] "P1") :=
  agv_unload_caps_at_held { agvW with current_load := [("P1", 7)] } "P1" 7
    (some 99) (by decide) (by decide) (by decide)
    (Or.inr ⟨99, rfl, by decide⟩)

/-- Counterexample item for the priority-scoring claim: one unit in stock
against a threshold of three. -/
def itemC6 : InventoryItem :=
  { product_id := "P6", name := "Gadget", quantity := 1, location := "storage_b",
    min_threshold := 3, max_capacity := 100 }

/-- C6 counterexample: at `quantity = 1`, `min_threshold = 3` the scaled
percentage is 20/3 ≈ 6.67; the source truncates it (`int()`) to 6 while the
spec's reference definition rounds it to 7, so the two definitions differ at
this item and the claimed equality fails. -/
theorem restock_priority_counterexample :
    RestockAgent.calculate_restock_priority itemC6 ≠
      restockPrioritySpec itemC6 ∧
    RestockAgent.calculate_restock_priority itemC6 = 6 ∧
    restockPrioritySpec itemC6 = 7 := by
  refine ⟨?_, ?_, ?_⟩ <;>
    norm_num [RestockAgent.calculate_restock_priority, restockPrioritySpec,
      itemC6, pyInt, clamp, round_eq]

theorem min_max_clamp_comm (x : Int) : min 9 (max 1 x) = max 1 (min 9 x) := by
  simp only [min_def, max_def]
  split_ifs <;> omega

/-- C6 amended: the source priority equals the reference definition with
truncation toward zero in place of rounding
(`clamp(int(((min_threshold − quantity)/min_threshold) × 10), 1, 9)`), and
it agrees with the spec's quoted example values: 7 at
`quantity = 3, threshold = 10` and 1 at `quantity = 9, threshold = 10`. -/
theorem restock_priority_amended (it : InventoryItem) :
    RestockAgent.calculate_restock_priority it = restockPrioritySpecTrunc it ∧
    RestockAgent.calculate_restock_priority
      { itemC6 with quantity := 3, min_threshold := 10 } = 7 ∧
    RestockAgent.calculate_restock_priority
      { itemC6 with quantity := 9, min_threshold := 10 } = 1 := by
  refine ⟨?_, ?_, ?_⟩
  · unfold RestockAgent.calculate_restock_priority restockPrioritySpecTrunc
      clamp
    by_cases h0 : it.quantity = 0
    · simp [h0]
    · simp only [h0, if_false]
      exact min_max_clamp_comm _
  · norm_num [RestockAgent.calculate_restock_priority, itemC6, pyInt]
  · norm_num [RestockAgent.calculate_restock_priority, itemC6, pyInt]

/-- C8: `plan_restock_operation` never mutates the world (the Inventory
Ledger and the Fleet Registry are returned unchanged on every path), and on
an item whose quantity is strictly above its threshold it returns
`success = true` with `restock_needed = false`. -/
theorem plan_restock_pure (s : WState) (product_id : String) :
    (RestockAgent.plan_restock_operation s product_id).2 = s ∧
    (∀ it, InventoryManager.get_item s.items product_id = some it →
      it.min_threshold < it.quantity →
      (RestockAgent.plan_restock_operation s product_id).1.success = true ∧
      (RestockAgent.plan_restock_operation s product_id).1.restock_needed =
        some false) := by
  constructor
  · unfold RestockAgent.plan_restock_operation
    cases InventoryManager.get_item s.items product_id with
    | none => rfl
    | some it =>
      by_cases hn : it.needs_restock
      · simp only [hn, Bool.not_true, Bool.false_eq_true, if_false]
        cases AGVManager.get_available_agvs s.agvs <;> rfl
      · simp only [Bool.not_eq_true] at hn
        simp only [hn, Bool.not_false, if_true]
  · intro it hit hq
    have hn : it.needs_restock = false := by
      simp only [InventoryItem.needs_restock, decide_eq_false_iff_not, not_le]
      exact hq
    unfold RestockAgent.plan_restock_operation
    rw [hit]
    simp [hn]

/-- Fixture world for concrete witnesses: one well-stocked item, one idle
AGV. -/
def sW : WState := { items := [("P1", itemW)], agvs := [("A1", agvW)] }

/-- Witness for C8 at the concrete world: planning for the well-stocked
item mutates nothing and reports that no restock is needed. -/
theorem plan_restock_pure_witness :
    (RestockAgent.plan_restock_operation sW "P1").2 = sW ∧
    ((RestockAgent.plan_restock_operation sW "P1").1.success = true ∧
      (RestockAgent.plan_restock_operation sW "P1").1.restock_needed =
        some false) :=
  ⟨(plan_restock_pure sW "P1").1,
    (plan_restock_pure sW "P1").2 itemW rfl (by decide)⟩

/-- C5: an `unload_agv` demand for an idle AGV that holds the product, with
no existing ledger entry for that product, reaches the new-item branch and
raises `AttributeError` (because `add_item` receives a plain dict and reads
`item.product_id` from it) instead of returning a result value. -/
theorem unload_missing_item_raises (s : WState) (agv_id product_id : String)
    (agv : AGV) (held : Int) (oq : Option Int)
    (ha : agv_id ≠ "") (hp : product_id ≠ "")
    (hagv : AGVManager.get_agv s.agvs agv_id = some agv)
    (hidle : agv.status = AGVStatus.idle)
    (hheld : alGet agv.current_load product_id = some held)
    (hpos : 0 < held)
    (hq : oq = none ∨ ∃ q, oq = some q ∧ 0 < q)
    (hmiss : InventoryManager.get_item s.items product_id = none) :
    AGVPlannerAgent.unload_agv_action s agv_id product_id oq =
      Except.error PyErr.attributeError := by
  have huq : 0 < (agv.unload_item product_id oq).1.2 := by
    rcases hq with rfl | ⟨q, rfl, hqpos⟩
    · simp only [AGV.unload_item, hidle, hheld]
      simpa using hpos
    · by_cases hge : q ≥ held
      · simp only [AGV.unload_item, hidle, hheld]
        simpa [hge] using hpos
      · simp only [AGV.unload_item, hidle, hheld]
        simpa [hge] using hqpos
  unfold AGVPlannerAgent.unload_agv_action
  rw [if_neg (by simp [ha, hp])]
  rw [hagv]
  simp only [AGVManager.unload_agv, hagv, hheld, Option.isNone_some,
    Bool.false_eq_true, if_false, huq, if_true]
  simp only [hmiss, InventoryManager.add_item]

/-- Fixture AGV holding ten units of a product that has no ledger entry. -/
def agvHold : AGV := { agvW with current_load := [("P9", 10)] }

/-- Fixture world for C5: empty ledger, one AGV holding product P9. -/
def sC5 : WState := { items := [], agvs := [("A1", agvHold)] }

/-- Witness for C5 at the concrete world: unloading P9 raises. -/
theorem unload_missing_item_raises_witness :
    AGVPlannerAgent.unload_agv_action sC5 "A1" "P9" none =
      Except.error PyErr.attributeError :=
  unload_missing_item_raises sC5 "A1" "P9" agvHold 10 none
    (by decide) (by decide) rfl (by decide) (by decide) (by decide)
    (Or.inl rfl) rfl

/-- C2: when a `load_agv` demand finds the agent and the item, debits the
ledger successfully (sufficient inventory), and the subsequent AGV load
fails (the hypothesis `hfail`, covering not-idle and over-capacity agents),
the compensation re-add fires and the ledger quantity of the product after
the call equals its value before the call; the result reports failure. -/
theorem load_agv_compensation (s : WState) (agv_id product_id : String)
    (quantity : Int) (agv : AGV) (it : InventoryItem)
    (ha : agv_id ≠ "") (hp : product_id ≠ "") (hq : 0 < quantity)
    (hagv : AGVManager.get_agv s.agvs agv_id = some agv)
    (hit : InventoryManager.get_item s.items product_id = some it)
    (hcap : it.quantity ≤ it.max_capacity)
    (henough : quantity ≤ it.quantity)
    (hfail : (AGV.load_item
        (if agv.location = it.location then agv else agv.move_to it.location)
        product_id quantity).1 = false) :
    (AGVPlannerAgent.load_agv_action s agv_id product_id quantity).1.success =
      false ∧
    (InventoryManager.get_item
        (AGVPlannerAgent.load_agv_action s agv_id product_id quantity).2.items
        product_id).map (fun j => j.quantity) =
      (InventoryManager.get_item s.items product_id).map
        (fun j => j.quantity) := by
  have hnotlt : ¬(it.quantity < quantity) := not_lt.mpr henough
  have hnotgt : ¬(quantity > it.quantity) := not_lt.mpr henough
  have hrm : InventoryManager.remove_quantity s.items product_id quantity =
      (true, alSet s.items product_id
        { it with quantity := it.quantity - quantity }) := by
    simp [InventoryManager.remove_quantity, hit, InventoryItem.remove, hnotgt]
  have hgetR : InventoryManager.get_item
      (alSet s.items product_id
        { it with quantity := it.quantity - quantity }) product_id =
      some { it with quantity := it.quantity - quantity } :=
    alGet_alSet_self s.items product_id _
  have hcanR : ({ it with quantity := it.quantity - quantity } :
      InventoryItem).can_add quantity = true := by
    simp only [InventoryItem.can_add]
    simp only [decide_eq_true_eq]
    omega
  have hadd : InventoryManager.add_quantity
      (alSet s.items product_id
        { it with quantity := it.quantity - quantity }) product_id quantity =
      (true, alSet (alSet s.items product_id
        { it with quantity := it.quantity - quantity }) product_id
        { it with quantity := it.quantity - quantity + quantity }) := by
    simp [InventoryManager.add_quantity, hgetR, InventoryItem.add, hcanR]
  have hfinal : (InventoryManager.get_item
      (alSet (alSet s.items product_id
        { it with quantity := it.quantity - quantity }) product_id
        { it with quantity := it.quantity - quantity + quantity })
      product_id).map (fun j => j.quantity) =
      (InventoryManager.get_item s.items product_id).map
        (fun j => j.quantity) := by
    rw [show InventoryManager.get_item
        (alSet (alSet s.items product_id
          { it with quantity := it.quantity - quantity }) product_id
          { it with quantity := it.quantity - quantity + quantity })
        product_id = some { it with quantity :=
          it.quantity - quantity + quantity } from alGet_alSet_self _ _ _,
      hit]
    simp only [Option.map_some']
    show some (it.quantity - quantity + quantity) = some it.quantity
    congr 1
    omega
  unfold AGVPlannerAgent.load_agv_action
  rw [if_neg (by simp [ha, hp, hq])]
  rw [hagv, hit]
  by_cases hloc : agv.location = it.location
  · rw [if_pos hloc] at hfail
    have hld : AGVManager.load_agv s.agvs agv_id product_id quantity =
        ((agv.load_item product_id quantity).1,
          alSet s.agvs agv_id (agv.load_item product_id quantity).2) := by
      simp [AGVManager.load_agv, hagv]
    simp only [hloc, ne_eq, not_true_eq_false, if_false, Bool.not_true,
      Bool.false_eq_true, if_true, hnotlt, hrm, hld, hfail, hadd]
    refine ⟨trivial, ?_⟩
    rw [hit] at hfinal
    exact hfinal
  · rw [if_neg hloc] at hfail
    have hmv : AGVManager.move_agv s.agvs agv_id it.location =
        (true, alSet s.agvs agv_id (agv.move_to it.location)) := by
      simp [AGVManager.move_agv, hagv]
    have hgetM : AGVManager.get_agv
        (alSet s.agvs agv_id (agv.move_to it.location)) agv_id =
        some (agv.move_to it.location) := alGet_alSet_self _ _ _
    have hld : AGVManager.load_agv
        (alSet s.agvs agv_id (agv.move_to it.location)) agv_id product_id
        quantity =
        (((agv.move_to it.location).load_item product_id quantity).1,
          alSet (alSet s.agvs agv_id (agv.move_to it.location)) agv_id
            ((agv.move_to it.location).load_item product_id quantity).2) := by
      simp [AGVManager.load_agv, hgetM]
    simp only [hloc, ne_eq, not_false_eq_true, if_true, hmv, Bool.not_true,
      Bool.false_eq_true, if_false, hnotlt, hrm, hld, hfail, hadd]
    refine ⟨trivial, ?_⟩
    rw [hit] at hfinal
    exact hfinal

/-- Fixture item for the C2 witness. -/
def itemC2 : InventoryItem :=
  { product_id := "P2", name := "Laptop", quantity := 50,
    location := "storage_a", min_threshold := 5, max_capacity := 100 }

/-- Fixture AGV for the C2 witness: colocated with the item but charging,
so the AGV-load step fails after the ledger debit succeeds. -/
def agvC2 : AGV :=
  { agv_id := "A2", name := "Bot2", location := "storage_a",
    status := AGVStatus.charging, battery_level := 100, max_capacity := 50,
    current_load := [] }

/-- Fixture world for the C2 witness. -/
def sC2 : WState := { items := [("P2", itemC2)], agvs := [("A2", agvC2)] }

/-- Witness for C2 at the concrete world: the ledger holds 50 units of P2
before and after the failed `load_agv` call. -/
theorem load_agv_compensation_witness :
    (AGVPlannerAgent.load_agv_action sC2 "A2" "P2" 10).1.success = false ∧
    (InventoryManager.get_item
        (AGVPlannerAgent.load_agv_action sC2 "A2" "P2" 10).2.items "P2").map
        (fun j => j.quantity) =
      (InventoryManager.get_item sC2.items "P2").map (fun j => j.quantity) :=
  load_agv_compensation sC2 "A2" "P2" 10 agvC2 itemC2 (by decide) (by decide)
    (by decide) rfl rfl (by decide) (by decide) (by decide)

theorem AGVManager.move_agv_of_get (agvs : Agvs) (agv_id : String)
    (agv : AGV) (loc : String)
    (h : AGVManager.get_agv agvs agv_id = some agv) :
    AGVManager.move_agv agvs agv_id loc =
      (true, alSet agvs agv_id (agv.move_to loc)) := by
  simp [AGVManager.move_agv, h]

theorem AGVManager.load_agv_of_get (agvs : Agvs) (agv_id : String)
    (agv : AGV) (product_id : String) (quantity : Int)
    (h : AGVManager.get_agv agvs agv_id = some agv) :
    AGVManager.load_agv agvs agv_id product_id quantity =
      ((agv.load_item product_id quantity).1,
        alSet agvs agv_id (agv.load_item product_id quantity).2) := by
  simp [AGVManager.load_agv, h]

theorem AGVManager.unload_agv_of_get (agvs : Agvs) (agv_id : String)
    (agv : AGV) (product_id : String) (quantity : Option Int)
    (h : AGVManager.get_agv agvs agv_id = some agv) :
    AGVManager.unload_agv agvs agv_id product_id quantity =
      ((agv.unload_item product_id quantity).1,
        alSet agvs agv_id (agv.unload_item product_id quantity).2) := by
  simp [AGVManager.unload_agv, h]

/-- C1 amended: in `execute_restock`, when the final unload succeeds
(`huq`) but the Inventory Ledger commit via `add_quantity` fails
(`hcommit`), NO compensating re-load is applied: the call reports failure,
the ledger is exactly the pre-call ledger, and the agent is left exactly in
its post-unload state (the unloaded quantity is not put back on it, so its
`current_load` equals its value after the unload, which is its value just
before the commit attempt — not its pre-unload value). -/
theorem execute_restock_no_compensation (s : WState)
    (product_id agv_id : String) (restock_amount : Int)
    (agv : AGV) (it : InventoryItem)
    (hp : product_id ≠ "") (ha : agv_id ≠ "") (hm : restock_amount ≠ 0)
    (hit : InventoryManager.get_item s.items product_id = some it)
    (hagv : AGVManager.get_agv s.agvs agv_id = some agv)
    (hidle : agv.status = AGVStatus.idle)
    (hload : ((agv.move_to "receiving").load_item product_id
        restock_amount).1 = true)
    (huq : 0 < ((((agv.move_to "receiving").load_item product_id
        restock_amount).2.move_to it.location).unload_item product_id
        (some restock_amount)).1.2)
    (hcommit : (it.add ((((agv.move_to "receiving").load_item product_id
        restock_amount).2.move_to it.location).unload_item product_id
        (some restock_amount)).1.2).1 = false) :
    (RestockAgent.execute_restock s product_id agv_id
        restock_amount).1.success = false ∧
    (RestockAgent.execute_restock s product_id agv_id
        restock_amount).2.items = s.items ∧
    AGVManager.get_agv
      (RestockAgent.execute_restock s product_id agv_id
        restock_amount).2.agvs agv_id =
      some ((((agv.move_to "receiving").load_item product_id
        restock_amount).2.move_to it.location).unload_item product_id
        (some restock_amount)).2 := by
  have h1 := AGVManager.move_agv_of_get s.agvs agv_id agv "receiving" hagv
  have g1 : AGVManager.get_agv
      (alSet s.agvs agv_id (agv.move_to "receiving")) agv_id =
      some (agv.move_to "receiving") := alGet_alSet_self _ _ _
  have h2 := AGVManager.load_agv_of_get _ agv_id _ product_id restock_amount g1
  have g2 : AGVManager.get_agv
      (alSet (alSet s.agvs agv_id (agv.move_to "receiving")) agv_id
        ((agv.move_to "receiving").load_item product_id restock_amount).2)
      agv_id =
      some ((agv.move_to "receiving").load_item product_id
        restock_amount).2 := alGet_alSet_self _ _ _
  have h3 := AGVManager.move_agv_of_get _ agv_id _ it.location g2
  have g3 : AGVManager.get_agv
      (alSet (alSet (alSet s.agvs agv_id (agv.move_to "receiving")) agv_id
        ((agv.move_to "receiving").load_item product_id restock_amount).2)
        agv_id
        (((agv.move_to "receiving").load_item product_id
          restock_amount).2.move_to it.location)) agv_id =
      some (((agv.move_to "receiving").load_item product_id
        restock_amount).2.move_to it.location) := alGet_alSet_self _ _ _
  have h4 := AGVManager.unload_agv_of_get _ agv_id _ product_id
    (some restock_amount) g3
  have hcom : InventoryManager.add_quantity s.items product_id
      ((((agv.move_to "receiving").load_item product_id
        restock_amount).2.move_to it.location).unload_item product_id
        (some restock_amount)).1.2 = (false, s.items) := by
    simp [InventoryManager.add_quantity, hit, hcommit]
  unfold RestockAgent.execute_restock
  rw [if_neg (by simp [hp, ha, hm])]
  rw [hit, hagv]
  simp only [hidle, ne_eq, not_true_eq_false, if_false, h1, h2, h3, h4,
    hload, huq, hcom, Bool.not_true, Bool.false_eq_true, if_true,
    Bool.not_false]
  refine ⟨trivial, trivial, ?_⟩
  exact alGet_alSet_self _ _ _

/-- C1 counterexample: at the concrete world `sW` (item P1 at 80/100, idle
AGV A1), `execute_restock` for 30 units reaches the commit step with 30
units successfully unloaded, the `add_quantity` commit fails
(80 + 30 > 100), and the final AGV load is EMPTY: the 30 unloaded units are
not re-loaded onto the agent (they are lost), refuting the claimed
compensating re-load. -/
theorem execute_restock_counterexample :
    (RestockAgent.execute_restock sW "P1" "A1" 30).1.success = false ∧
    ((((agvW.move_to "receiving").load_item "P1" 30).2.move_to
        itemW.location).unload_item "P1" (some 30)).1.2 = 30 ∧
    (RestockAgent.execute_restock sW "P1" "A1" 30).2.items = sW.items ∧
    ((RestockAgent.execute_restock sW "P1" "A1" 30).2.agvs.map
        (fun e => (e.1, e.2.current_load))) = [("A1", [])] := by
  have hg1 : ¬("P1" = "") := by decide
  have hg2 : ¬("A1" = "") := by decide
  refine ⟨?_, ?_, ?_, ?_⟩ <;>
    norm_num [RestockAgent.execute_restock, hg1, hg2, sW, itemW, agvW,
      InventoryManager.get_item, AGVManager.get_agv, AGVManager.move_agv,
      AGVManager.load_agv, AGVManager.unload_agv,
      InventoryManager.add_quantity, AGV.move_to, AGV.load_item,
      AGV.unload_item, InventoryItem.add, InventoryItem.can_add, alGet,
      alSet, alErase, sumVals, List.find?]

/-- Witness for the amended C1 theorem at the concrete world `sW`. -/
theorem execute_restock_no_compensation_witness :
    (RestockAgent.execute_restock sW "P1" "A1" 30).1.success = false ∧
    (RestockAgent.execute_restock sW "P1" "A1" 30).2.items = sW.items ∧
    AGVManager.get_agv
      (RestockAgent.execute_restock sW "P1" "A1" 30).2.agvs "A1" =
      some ((((agvW.move_to "receiving").load_item "P1" 30).2.move_to
        itemW.location).unload_item "P1" (some 30)).2 :=
  execute_restock_no_compensation sW "P1" "A1" 30 agvW itemW
    (by decide) (by decide) (by decide) rfl rfl (by decide)
    (by norm_num [AGV.move_to, AGV.load_item, agvW, sumVals, alGet,
      List.find?])
    (by norm_num [AGV.move_to, AGV.load_item, AGV.unload_item, agvW, itemW,
      sumVals, alGet, alSet, alErase, List.find?])
    (by norm_num [AGV.move_to, AGV.load_item, AGV.unload_item,
      InventoryItem.add, InventoryItem.can_add, agvW, itemW, sumVals, alGet,
      alSet, alErase, List.find?])

/-- All actions of a list succeed when executed in order from the given
coordinator state. -/
def CoordinatorAgent.allSucceed {σ : Type}
    (dispatch : CoordAction → σ → ActionResult × σ) :
    CoordState σ → List CoordAction → Bool
  | _, [] => true
  | cs, a :: rest =>
    let r := CoordinatorAgent.execute_action dispatch cs a
    r.1.success && CoordinatorAgent.allSucceed dispatch r.2 rest

/-- C7: `execute_plan` on `good ++ bad :: rest`, where every action of
`good` succeeds in order and `bad` then fails, returns exactly the results
of `good` followed by the failing result of `bad`, and its final state is
the state after executing `good` and then `bad` — independent of `rest`
(the actions after the first failure are never invoked) and with no
rollback of the earlier successful actions. -/
theorem execute_plan_short_circuit {σ : Type}
    (dispatch : CoordAction → σ → ActionResult × σ) (cs : CoordState σ)
    (good : List CoordAction) (bad : CoordAction) (rest : List CoordAction)
    (hgood : CoordinatorAgent.allSucceed dispatch cs good = true)
    (hbad : (CoordinatorAgent.execute_action dispatch
      (CoordinatorAgent.execute_plan dispatch cs good).2 bad).1.success =
      false) :
    CoordinatorAgent.execute_plan dispatch cs (good ++ bad :: rest) =
      ((CoordinatorAgent.execute_plan dispatch cs good).1 ++
        [(CoordinatorAgent.execute_action dispatch
          (CoordinatorAgent.execute_plan dispatch cs good).2 bad).1],
        (CoordinatorAgent.execute_action dispatch
          (CoordinatorAgent.execute_plan dispatch cs good).2 bad).2) := by
  induction good generalizing cs with
  | nil =>
    simp only [CoordinatorAgent.execute_plan, List.nil_append] at hbad ⊢
    simp only [hbad, Bool.false_eq_true, if_false, List.nil_append]
  | cons a good ih =>
    simp only [CoordinatorAgent.allSucceed, Bool.and_eq_true] at hgood
    obtain ⟨hsucc, hrest⟩ := hgood
    simp only [CoordinatorAgent.execute_plan, List.cons_append] at hbad ⊢
    simp only [hsucc, if_true] at hbad ⊢
    simp only [List.append_eq]
    rw [ih _ hrest hbad]
    simp only [List.cons_append]

/-- Concrete dispatch fixture for coordinator witnesses: succeeds exactly
when the action payload is the string ok. -/
def dispatchW : CoordAction → Unit → ActionResult × Unit :=
  fun a u => ({ success := a.payload == "ok" }, u)

/-- A succeeding fixture action. -/
def actOk : CoordAction :=
  { type := some "step", agent := some "agv", payload := "ok" }

/-- A failing fixture action. -/
def actBad : CoordAction :=
  { type := some "step", agent := some "agv", payload := "fail" }

/-- A fixture action whose `type` key is absent. -/
def actNoType : CoordAction :=
  { type := none, agent := some "agv", payload := "ok" }

/-- Initial coordinator fixture state: empty journal over a unit world. -/
def csW : CoordState Unit := { world := (), journal := [] }

/-- Witness for C7 at a concrete plan `[ok, fail, ok]`: the result list is
the success of the first action followed by the failure of the second, and
the third action is never invoked. -/
theorem execute_plan_short_circuit_witness :
    CoordinatorAgent.execute_plan dispatchW csW ([actOk] ++ actBad ::
        [actOk]) =
      ((CoordinatorAgent.execute_plan dispatchW csW [actOk]).1 ++
        [(CoordinatorAgent.execute_action dispatchW
          (CoordinatorAgent.execute_plan dispatchW csW [actOk]).2 actBad).1],
        (CoordinatorAgent.execute_action dispatchW
          (CoordinatorAgent.execute_plan dispatchW csW [actOk]).2
          actBad).2) :=
  execute_plan_short_circuit dispatchW csW [actOk] actBad [actOk]
    (by decide) (by decide)

theorem execute_action_journal_extend {σ : Type}
    (dispatch : CoordAction → σ → ActionResult × σ) (cs : CoordState σ)
    (a : CoordAction) :
    ∃ t, (CoordinatorAgent.execute_action dispatch cs a).2.journal =
      cs.journal ++ t := by
  cases h : truthyStr a.type
  · exact ⟨[], by simp [CoordinatorAgent.execute_action, h]⟩
  · refine ⟨[JournalEntry.action a, JournalEntry.result a
      (dispatch a { cs with journal := cs.journal ++
        [JournalEntry.action a] }.world).1], ?_⟩
    simp [CoordinatorAgent.execute_action, h]

theorem execute_plan_journal_extend {σ : Type}
    (dispatch : CoordAction → σ → ActionResult × σ) (cs : CoordState σ)
    (plan : List CoordAction) :
    ∃ t, (CoordinatorAgent.execute_plan dispatch cs plan).2.journal =
      cs.journal ++ t := by
  induction plan generalizing cs with
  | nil => exact ⟨[], by simp [CoordinatorAgent.execute_plan]⟩
  | cons b rest ih =>
    obtain ⟨t1, ht1⟩ := execute_action_journal_extend dispatch cs b
    by_cases hs :
        (CoordinatorAgent.execute_action dispatch cs b).1.success = true
    · obtain ⟨t2, ht2⟩ :=
        ih (CoordinatorAgent.execute_action dispatch cs b).2
      refine ⟨t1 ++ t2, ?_⟩
      simp only [CoordinatorAgent.execute_plan, hs, if_true, ht2, ht1,
        List.append_assoc]
    · refine ⟨t1, ?_⟩
      simp only [CoordinatorAgent.execute_plan, hs, if_false, ht1,
        Bool.false_eq_true]

/-- C9 amended: an action with a truthy `type` key appends exactly its
action entry followed by its result entry to the journal before returning;
an action with a falsy `type` returns failure and leaves the coordinator
state (journal included) unchanged; and any `execute_plan` call only
appends to the journal — entries already present are never mutated or
removed. -/
theorem coordinator_journal_append_only {σ : Type}
    (dispatch : CoordAction → σ → ActionResult × σ) (cs : CoordState σ)
    (a : CoordAction) (plan : List CoordAction) :
    (truthyStr a.type = true →
      (CoordinatorAgent.execute_action dispatch cs a).2.journal =
        cs.journal ++ [JournalEntry.action a, JournalEntry.result a
          (CoordinatorAgent.execute_action dispatch cs a).1]) ∧
    (truthyStr a.type = false →
      (CoordinatorAgent.execute_action dispatch cs a).1.success = false ∧
      (CoordinatorAgent.execute_action dispatch cs a).2 = cs) ∧
    (∃ t, (CoordinatorAgent.execute_plan dispatch cs plan).2.journal =
      cs.journal ++ t) := by
  refine ⟨?_, ?_, execute_plan_journal_extend dispatch cs plan⟩
  · intro h
    simp [CoordinatorAgent.execute_action, h]
  · intro h
    simp [CoordinatorAgent.execute_action, h]

/-- Witness for C9 at concrete inputs: a typed action appends its two
journal entries in order; a typeless action fails and journals nothing. -/
theorem coordinator_journal_append_only_witness :
    ((CoordinatorAgent.execute_action dispatchW csW actOk).2.journal =
      csW.journal ++ [JournalEntry.action actOk, JournalEntry.result actOk
        (CoordinatorAgent.execute_action dispatchW csW actOk).1]) ∧
    ((CoordinatorAgent.execute_action dispatchW csW actNoType).1.success =
        false ∧
      (CoordinatorAgent.execute_action dispatchW csW actNoType).2 = csW) :=
  ⟨(coordinator_journal_append_only dispatchW csW actOk []).1 (by decide),
    (coordinator_journal_append_only dispatchW csW actNoType []).2.1
      (by decide)⟩

/-- C9 counterexample: the typeless action submitted to `execute_action`
produces ZERO journal entries (the claim requires two for every submitted
action): the call returns failure before anything is journaled. -/
theorem coordinator_journal_counterexample :
    (CoordinatorAgent.execute_action dispatchW csW
      actNoType).2.journal.length = 0 ∧
    (CoordinatorAgent.execute_action dispatchW csW actNoType).1.success =
      false := by
  decide
